import Mathlib

/-!
Verification development for the multi-core CPU scheduling simulator
(sources: src/main.cpp, src/process.cpp, include/process.h).

The C++ sources ship two revisions of process.cpp / process.h concatenated;
the second revision is the full implementation that main.cpp compiles
against (the first is an empty skeleton), so all definitions below are
translated from the second revision of process.cpp and from main.cpp.

Modelling conventions:
- uint32 time stamps and durations are modelled as Nat.  The simulator uses
  a monotone millisecond clock, so every subtraction of the form
  (now - stamp) in the source has now at least stamp on every run; such
  subtractions are modelled with truncated Nat subtraction.
- The one subtraction the source performs on a stored duration where the
  argument can exceed the stored value, updateBurstTime (process.cpp,
  second revision, burst_times[i] = burst_times[i] - new_time on uint32),
  is modelled with explicit wraparound modulo 2^32 (u32sub below).
- int32_t accounting fields (cpu_time, remain_time) are modelled as Int.
  The termination test getRemainingTime() <= 0 divides by 1000.0 into a
  double, which preserves sign, so it is modelled as remain_time <= 0.
- Processes are handled by pointer in the source; the ready queue and the
  terminated list are modelled by value.  The source stamps a process after
  pushing its pointer; by-value we stamp first and push the final record,
  which is the value the queue observes in the source.
-/

/-- 2^32, the modulus of the uint32 arithmetic used by the source. -/
def U32 : Nat := 4294967296

/-- uint32 subtraction with wraparound, as computed by the C++ expression
a - b on uint32 operands (for a b < 2^32). -/
def u32sub (a b : Nat) : Nat := (a + (U32 - b % U32)) % U32

/-- Process states (process.h: enum State). -/
inductive PState where
  | NotStarted
  | Ready
  | Running
  | Io
  | Terminated
  deriving DecidableEq, Repr

/-- Scheduling policies (configreader.h: ScheduleAlgorithm). -/
inductive ScheduleAlgorithm where
  | FCFS
  | SJF
  | RR
  | PP
  deriving DecidableEq, Repr

/-- Immutable descriptor a process is built from (configreader.h:
ProcessDetails).  burst_times has num_bursts entries, even indices are CPU
bursts, odd indices are I/O bursts. -/
structure ProcessDetails where
  pid : Nat
  start_time : Nat
  num_bursts : Nat
  burst_times : List Nat
  priority : Nat
  deriving DecidableEq, Repr

/-- The process record (process.h, second revision).  Field names follow the
source.  burst_times is the mutable array (reduced on preemption);
cpu_io_times is the untouched copy of the original burst plan. -/
structure Process where
  pid : Nat
  start_time : Nat
  num_bursts : Nat
  current_burst : Nat
  burst_times : List Nat
  cpu_io_times : List Nat
  priority : Nat
  state : PState
  core : Int
  turn_time : Nat
  wait_time : Nat
  cpu_time : Int
  remain_time : Int
  total_remain_time : Nat
  into_queue_time : Nat
  launch_time : Nat
  lastCpuTime : Nat
  lastWaitTime : Nat
  burstStartTime : Nat
  burstTimeElapsed : Nat
  launched : Bool
  fromRunningToReady : Bool
  waitTimeNow : Nat
  wait_times : List Nat
  rrFlag : Bool
  roundRobinStartTime : Nat
  ppTime : Nat
  ppFlag : Bool
  deriving DecidableEq, Repr

/-- Sum of the even-indexed entries (the CPU bursts), as computed by the
constructor loop for (i = 0; i < num_bursts; i += 2). -/
def sumEvenIdx : List Nat → Nat
  | [] => 0
  | [a] => a
  | a :: _ :: rest => a + sumEvenIdx rest

/-- cpu_io_times[i] (0 when out of range; the source never indexes out of
range for a well-formed burst plan). -/
def cpuIoAt (p : Process) (i : Nat) : Nat := p.cpu_io_times.getD i 0

/-- burst_times[i]. -/
def burstAt (p : Process) (i : Nat) : Nat := p.burst_times.getD i 0

/-- The accumulation loop in updateProcess:
for (int i = current_burst - 2; i >= 0; i -= 2) acc += cpu_io_times[i].
Evaluates to the sum of cpu_io_times at indices current_burst - 2,
current_burst - 4, ... down to 0 or 1. -/
def burstsBefore (cpu_io : List Nat) : Nat → Nat
  | 0 => 0
  | 1 => 0
  | n + 2 => burstsBefore cpu_io n + cpu_io.getD n 0

/-- Process constructor (process.cpp, second revision).  When start_time is
0 the state is Ready and launch_time is stamped with the construction time;
otherwise the state is NotStarted and launch_time is left at 0 (the C++
leaves the field uninitialised in that branch; every read of it in the
source guards on launch_time != 0, matching the 0 model). -/
def mkProcess (d : ProcessDetails) (current_time : Nat) : Process :=
  { pid := d.pid
    start_time := d.start_time
    num_bursts := d.num_bursts
    current_burst := 0
    burst_times := d.burst_times
    cpu_io_times := d.burst_times
    priority := d.priority
    state := if d.start_time = 0 then PState.Ready else PState.NotStarted
    core := -1
    turn_time := 0
    wait_time := 0
    cpu_time := 0
    remain_time := (sumEvenIdx d.burst_times : Int)
    total_remain_time := sumEvenIdx d.burst_times
    into_queue_time := 0
    launch_time := if d.start_time = 0 then current_time else 0
    lastCpuTime := 0
    lastWaitTime := 0
    burstStartTime := 0
    burstTimeElapsed := 0
    launched := false
    fromRunningToReady := false
    waitTimeNow := 0
    wait_times := []
    rrFlag := false
    roundRobinStartTime := 0
    ppTime := 0
    ppFlag := false }

/-- Process::setState (process.cpp, second revision, around line 312).
If moving Ready -> Running, the wait accumulated in the episode that ends
now is recorded in wait_times; then the state is assigned.  No validation
of the transition is performed and launch_time is not touched.  The time
argument is accepted and ignored, as in the source. -/
def setState (p : Process) (new_state : PState) (current_time : Nat) : Process :=
  let _ := current_time
  let wt := if p.state = PState.Ready ∧ new_state = PState.Running then
              p.wait_times ++ [p.waitTimeNow]
            else p.wait_times
  { p with state := new_state, wait_times := wt }

/-- Process::setCpuCore. -/
def setCpuCore (p : Process) (core_num : Int) : Process := { p with core := core_num }

/-- Process::setIntoQueueTime. -/
def setIntoQueueTime (p : Process) (t : Nat) : Process := { p with into_queue_time := t }

/-- Process::setBurstStartTime. -/
def setBurstStartTime (p : Process) (t : Nat) : Process := { p with burstStartTime := t }

/-- Process::updateCurrentBurst: current_burst++. -/
def updateCurrentBurst (p : Process) : Process := { p with current_burst := p.current_burst + 1 }

/-- Process::resetBurstTimeElapsed. -/
def resetBurstTimeElapsed (p : Process) : Process := { p with burstTimeElapsed := 0 }

/-- Process::setLaunched. -/
def setLaunched (p : Process) (b : Bool) : Process := { p with launched := b }

/-- Process::setLaunchTime. -/
def setLaunchTime (p : Process) (t : Nat) : Process := { p with launch_time := t }

/-- Process::setRRFlag. -/
def setRRFlag (p : Process) : Process := { p with rrFlag := true }

/-- Process::setRoundRobinStartTime. -/
def setRoundRobinStartTime (p : Process) (t : Nat) : Process :=
  { p with roundRobinStartTime := t }

/-- Process::setPPTime. -/
def setPPTime (p : Process) (t : Nat) : Process := { p with ppTime := t }

/-- Process::setPPFlag. -/
def setPPFlag (p : Process) : Process := { p with ppFlag := true }

/-- Process::updateBurstTime (process.cpp, second revision, lines 394-397):
burst_times[burst_idx] = burst_times[burst_idx] - new_time, on uint32
(wraps around when new_time exceeds the stored value).  The first-revision
skeleton assigned new_time instead; main.cpp links against this
subtracting revision. -/
def updateBurstTime (p : Process) (burst_idx : Nat) (new_time : Nat) : Process :=
  { p with burst_times :=
      p.burst_times.set burst_idx (u32sub (burstAt p burst_idx) new_time) }

/-- Process::updateProcess (process.cpp, second revision, lines 329-392).
The source is a sequence of guarded field assignments; the guards depend
only on state and the two policy flags (which the body never writes), so
the sequential blocks are transcribed as chained conditional field values
assembled into one record update:
- block 1 (state != Terminated and launch_time != 0): turn_time.
- block 2 (Running and rrFlag == 0): cpu_time, remain_time,
  burstTimeElapsed from burstStartTime.
- block 3 (Running and rrFlag == 1): same fields from roundRobinStartTime,
  with the already-consumed part of the current burst
  (cpu_io_times[cb] - burst_times[cb], uint32) added back in.
- block 4 (Running and ppFlag == 1): same as block 3 with ppTime.
  When ppFlag is set and rrFlag is not, the source runs block 2 and then
  overwrites its three fields in block 4, which the chaining reproduces.
- block 5 (Ready): waitTimeNow, wait_time.
- block 6 (IO): burstTimeElapsed.
- block 7 (Terminated): remain_time = 0. -/
def updateProcess (p : Process) (t : Nat) : Process :=
  let cb := p.current_burst
  let turn1 :=
    if p.state ≠ PState.Terminated ∧ p.launch_time ≠ 0 then t - p.launch_time else p.turn_time
  let consumed :=
    if cpuIoAt p cb ≠ burstAt p cb then u32sub (cpuIoAt p cb) (burstAt p cb) else 0
  let cpu1 : Int :=
    if p.state = PState.Running ∧ p.rrFlag = false then
      ((burstsBefore p.cpu_io_times cb + (t - p.burstStartTime) : Nat) : Int)
    else p.cpu_time
  let rem1 : Int :=
    if p.state = PState.Running ∧ p.rrFlag = false then
      (p.total_remain_time : Int) - cpu1
    else p.remain_time
  let be1 :=
    if p.state = PState.Running ∧ p.rrFlag = false then t - p.burstStartTime
    else p.burstTimeElapsed
  let cpu2 : Int :=
    if p.state = PState.Running ∧ p.rrFlag = true then
      ((consumed + burstsBefore p.cpu_io_times cb + (t - p.roundRobinStartTime) : Nat) : Int)
    else cpu1
  let rem2 : Int :=
    if p.state = PState.Running ∧ p.rrFlag = true then
      (p.total_remain_time : Int) - cpu2
    else rem1
  let be2 :=
    if p.state = PState.Running ∧ p.rrFlag = true then
      consumed + (t - p.roundRobinStartTime)
    else be1
  let cpu3 : Int :=
    if p.state = PState.Running ∧ p.ppFlag = true then
      ((consumed + burstsBefore p.cpu_io_times cb + (t - p.ppTime) : Nat) : Int)
    else cpu2
  let rem3 : Int :=
    if p.state = PState.Running ∧ p.ppFlag = true then
      (p.total_remain_time : Int) - cpu3
    else rem2
  let be3 :=
    if p.state = PState.Running ∧ p.ppFlag = true then
      consumed + (t - p.ppTime)
    else be2
  let wtn := if p.state = PState.Ready then t - p.into_queue_time else p.waitTimeNow
  let wait1 :=
    if p.state = PState.Ready then p.wait_times.sum + (t - p.into_queue_time)
    else p.wait_time
  let be4 := if p.state = PState.Io then t - p.burstStartTime else be3
  let rem4 : Int := if p.state = PState.Terminated then 0 else rem3
  { p with
    turn_time := turn1
    cpu_time := cpu3
    remain_time := rem4
    burstTimeElapsed := be4
    waitTimeNow := wtn
    wait_time := wait1 }

/-- SjfComparator (process.cpp, second revision): orders by
getRemainingTime(), i.e. remain_time / 1000.0; division by 1000 preserves
the order of the int32 values. -/
def sjfComparator (p1 p2 : Process) : Bool := p1.remain_time < p2.remain_time

/-- PpComparator (process.cpp, second revision): orders by priority. -/
def ppComparator (p1 p2 : Process) : Bool := p1.priority < p2.priority

/-! ## The per-core worker loop (main.cpp, coreRunProcesses, lines 207-400)

One iteration of the while loop is modelled as a state function over the
shared scheduler data and the worker-local variables.  All currentTime()
calls of one iteration are modelled by a single timestamp t (successive
calls within one iteration differ by microseconds in the source).  The
context-switch spin waits only consume wall-clock time; their lock
behaviour is modelled separately by the event traces further below. -/

/-- The shared scheduler record (main.cpp: SchedulerData), restricted to the
fields the workers mutate.  algorithm, context_switch and time_slice are
configuration constants and are passed as parameters instead. -/
structure MutShared where
  ready_queue : List Process
  terminated : List Process
  all_terminated : Bool
  deriving DecidableEq, Repr

/-- Worker-local variables of coreRunProcesses (main.cpp, lines 221-226):
p, inRobin, inProcess, currentBurst (uint16, declared as -1, i.e. 65535)
and currentBurstTime. -/
structure CoreState where
  p : Option Process
  inRobin : Bool
  inProcess : Bool
  currentBurst : Nat
  currentBurstTime : Nat
  deriving DecidableEq, Repr

/-- Initial worker-local state (main.cpp, lines 221-226). -/
def initCoreState : CoreState :=
  { p := none, inRobin := false, inProcess := false,
    currentBurst := 65535, currentBurstTime := 0 }

/-- Where the worker sends its process at the end of one loop iteration. -/
inductive BlockResult where
  /-- The process stays on the core. -/
  | keep (p : Process)
  /-- The process was appended to the terminated list and released. -/
  | toTerminated (p : Process)
  /-- The process entered I/O and was released (the coordinator finds it
  again through the global process list). -/
  | toIo (p : Process)
  /-- The process was pushed back onto the ready queue and released. -/
  | toReady (p : Process)
  deriving DecidableEq, Repr

/-- True exactly for BlockResult.keep. -/
def BlockResult.isKeep : BlockResult → Bool
  | .keep _ => true
  | _ => false

/-- True exactly for BlockResult.toIo. -/
def BlockResult.isToIo : BlockResult → Bool
  | .toIo _ => true
  | _ => false

/-- True exactly for BlockResult.toReady. -/
def BlockResult.isToReady : BlockResult → Bool
  | .toReady _ => true
  | _ => false

/-- The process carried by a BlockResult. -/
def BlockResult.proc : BlockResult → Process
  | .keep p => p
  | .toTerminated p => p
  | .toIo p => p
  | .toReady p => p

/-- Dispatch of a popped process (main.cpp, lines 245-254): transition to
Running, assign the core, on first dispatch set launched and stamp
launch_time, reset burstTimeElapsed, and stamp burstStartTime when the
worker-local currentBurst differs from the process current burst. -/
def dispatchProcess (q : Process) (core_id : Int) (csCurrentBurst : Nat) (t : Nat) : Process :=
  let q := setState q PState.Running t
  let q := setCpuCore q core_id
  let q := if q.launched = false then setLaunchTime (setLaunched q true) t else q
  let q := resetBurstTimeElapsed q
  if csCurrentBurst ≠ q.current_burst then setBurstStartTime q t else q

/-- The acquire phase of one iteration (main.cpp, lines 228-255): if the
worker holds no process and the ready queue is non-empty, pop the front and
dispatch it.  The source reads the queue size in one critical section and
pops in a second one; for the single-worker state function the two
coalesce (the interleaving gap is modelled separately below). -/
def dispatchPhase (sh : MutShared) (cs : CoreState) (core_id : Int) (t : Nat) :
    MutShared × CoreState :=
  match cs.p, sh.ready_queue with
  | none, q :: rest =>
      ({ sh with ready_queue := rest },
       { cs with p := some (dispatchProcess q core_id cs.currentBurst t) })
  | _, _ => (sh, cs)

/-- The FCFS / SJF yield checks (main.cpp, lines 263-288): observe the
process, then terminate when remain_time <= 0, else move to I/O when
burstTimeElapsed exceeds (strictly) the current burst time, else keep. -/
def fcfsSjfBlock (p : Process) (t : Nat) : BlockResult :=
  let p := updateProcess p t
  if p.remain_time ≤ 0 then
    let p := setState p PState.Terminated t
    let p := setCpuCore p (-1)
    let p := updateProcess p t
    BlockResult.toTerminated p
  else if p.burstTimeElapsed > cpuIoAt p p.current_burst then
    let p := setState p PState.Io t
    let p := updateCurrentBurst p
    let p := setBurstStartTime p t
    let p := resetBurstTimeElapsed p
    let p := updateProcess p t
    let p := setCpuCore p (-1)
    BlockResult.toIo p
  else
    BlockResult.keep p

/-- The RR yield checks (main.cpp, lines 290-336).  On entering a new
running episode (inRobin false) the round-robin start time is stamped and
the worker snapshots the current burst index and its full duration.  Then:
terminate on remain_time <= 0 (the source does not clear inRobin on this
path); move to I/O when burstTimeElapsed exceeds (strictly) the snapshot
duration (no updateProcess on this path, unlike FCFS); requeue when the
time slice has expired, reducing the stored burst remainder by the elapsed
slice. -/
def rrBlock (p : Process) (cs : CoreState) (time_slice t : Nat) : BlockResult × CoreState :=
  let pcs :=
    if cs.inRobin = false then
      let q := setRoundRobinStartTime p t
      (q, { cs with inRobin := true, currentBurst := q.current_burst,
                    currentBurstTime := cpuIoAt q q.current_burst })
    else (p, cs)
  let p := updateProcess pcs.1 t
  let cs := pcs.2
  if p.remain_time ≤ 0 then
    let p := setState p PState.Terminated t
    let p := setCpuCore p (-1)
    let p := updateProcess p t
    (BlockResult.toTerminated p, cs)
  else if p.burstTimeElapsed > cs.currentBurstTime then
    let p := setState p PState.Io t
    let p := updateCurrentBurst p
    let p := setBurstStartTime p t
    let p := resetBurstTimeElapsed p
    let p := setCpuCore p (-1)
    (BlockResult.toIo p, { cs with inRobin := false })
  else if t - p.roundRobinStartTime ≥ time_slice then
    let p := setState p PState.Ready t
    let p := updateBurstTime p p.current_burst (t - p.roundRobinStartTime)
    let p := setIntoQueueTime p t
    let p := setCpuCore p (-1)
    (BlockResult.toReady p, { cs with inRobin := false })
  else
    (BlockResult.keep p, cs)

/-- The PP termination / I/O checks (main.cpp, lines 364-391), reached only
when the preemption check did not fire. -/
def ppTermIoChecks (p : Process) (cs : CoreState) (t : Nat) : BlockResult × CoreState :=
  if p.remain_time ≤ 0 then
    let p := setState p PState.Terminated t
    let p := setCpuCore p (-1)
    let p := updateProcess p t
    (BlockResult.toTerminated p, { cs with inProcess := false })
  else if p.burstTimeElapsed > cpuIoAt p p.current_burst then
    let p := setState p PState.Io t
    let p := updateCurrentBurst p
    let p := setBurstStartTime p t
    let p := resetBurstTimeElapsed p
    let p := updateProcess p t
    let p := setCpuCore p (-1)
    (BlockResult.toIo p, { cs with inProcess := false })
  else
    (BlockResult.keep p, cs)

/-- The PP yield checks (main.cpp, lines 338-394).  On a new episode the PP
start time is stamped.  The process is observed, then FIRST the ready-queue
head is inspected under the lock: a strictly smaller priority value
preempts (reduce the stored burst remainder by the elapsed episode, requeue
as Ready).  Only when no preemption fired are termination and burst
completion checked. -/
def ppBlock (q : List Process) (p : Process) (cs : CoreState) (t : Nat) :
    BlockResult × CoreState :=
  let pcs :=
    if cs.inProcess = false then (setPPTime p t, { cs with inProcess := true })
    else (p, cs)
  let p := updateProcess pcs.1 t
  let cs := pcs.2
  match q with
  | [] => ppTermIoChecks p cs t
  | nx :: _ =>
    if nx.priority < p.priority then
      let p := setState p PState.Ready t
      let p := updateBurstTime p p.current_burst (t - p.ppTime)
      let p := setIntoQueueTime p t
      let p := setCpuCore p (-1)
      (BlockResult.toReady p, { cs with inProcess := false })
    else
      ppTermIoChecks p cs t

/-- Routes a block result back into the shared state (the push_back calls
on terminated and ready_queue in the respective paths of main.cpp) and
records whether the worker still holds the process. -/
def applyBlockResult (sh : MutShared) :
    BlockResult × CoreState → MutShared × CoreState
  | (BlockResult.keep p, cs1) => (sh, { cs1 with p := some p })
  | (BlockResult.toTerminated p, cs1) =>
      ({ sh with terminated := sh.terminated ++ [p] }, { cs1 with p := none })
  | (BlockResult.toIo _, cs1) => (sh, { cs1 with p := none })
  | (BlockResult.toReady p, cs1) =>
      ({ sh with ready_queue := sh.ready_queue ++ [p] }, { cs1 with p := none })

/-- One iteration of the worker while loop (main.cpp, lines 228-399):
acquire phase, then the policy flag assignment (lines 256-261, only RR and
PP set their flag), then exactly one of the three policy blocks, selected
by the mutually exclusive algorithm tests on lines 263, 290 and 338.
FCFS and SJF share the one branch guarded by
(algorithm == FCFS or algorithm == SJF). -/
def coreIteration (alg : ScheduleAlgorithm) (time_slice : Nat) (sh : MutShared)
    (cs : CoreState) (core_id : Int) (t : Nat) : MutShared × CoreState :=
  let shcs := dispatchPhase sh cs core_id t
  let sh := shcs.1
  let cs := shcs.2
  match alg with
  | ScheduleAlgorithm.FCFS | ScheduleAlgorithm.SJF =>
    match cs.p with
    | none => (sh, cs)
    | some p => applyBlockResult sh (fcfsSjfBlock p t, cs)
  | ScheduleAlgorithm.RR =>
    match cs.p with
    | none => (sh, cs)
    | some p =>
      let p := setRRFlag p
      applyBlockResult sh (rrBlock p cs time_slice t)
  | ScheduleAlgorithm.PP =>
    match cs.p with
    | none => (sh, cs)
    | some p =>
      let p := setPPFlag p
      applyBlockResult sh (ppBlock sh.ready_queue p cs t)

/-! ## The coordinator sweep (main.cpp, main, lines 86-154)

One pass of the main-thread while loop under the mutex: wake arrivals,
finish I/O bursts, refresh Ready and IO accounting, sort the ready queue
for SJF / PP, then the half-done and all-done checks. -/

/-- Coordinator-side state: the canonical process list, the shared record,
and the two wall-clock marks half_time and end_time (main.cpp, lines
82-85). -/
structure CoordState where
  processes : List Process
  sh : MutShared
  half_time : Nat
  end_time : Nat
  deriving DecidableEq, Repr

/-- The body of the per-process loop of the sweep (main.cpp, lines 95-121).
The source reads the state once into a local (line 98) and each of the
three branches tests that snapshot, so a process woken NotStarted -> Ready
in this sweep is not also treated as Ready in the same sweep.  The
accumulator carries the processes already swept and the ready queue. -/
def sweepProcess (programStartTime t : Nat) (acc : List Process × List Process)
    (q : Process) : List Process × List Process :=
  let st0 := q.state
  let a1 :=
    if st0 = PState.NotStarted then
      if q.start_time ≤ t - programStartTime then
        let q := setState q PState.Ready t
        let q := setIntoQueueTime q t
        (q, acc.2 ++ [q])
      else (q, acc.2)
    else (q, acc.2)
  let q1 := if st0 = PState.Ready then updateProcess a1.1 t else a1.1
  let a2 :=
    if st0 = PState.Io then
      let q := updateProcess q1 t
      if q.burstTimeElapsed ≥ cpuIoAt q q.current_burst then
        let q := updateCurrentBurst q
        let q := setState q PState.Ready t
        let q := setIntoQueueTime q t
        (q, a1.2 ++ [q])
      else (q, a1.2)
    else (q1, a1.2)
  (acc.1 ++ [a2.1], a2.2)

/-- The arrival / I/O-completion part of the sweep (main.cpp, lines
92-121): fold the per-process body over the canonical process list. -/
def arrivalPhase (programStartTime t : Nat) (st : CoordState) : CoordState :=
  let pr := st.processes.foldl (sweepProcess programStartTime t) ([], st.sh.ready_queue)
  { st with processes := pr.1, sh := { st.sh with ready_queue := pr.2 } }

/-- Stable insertion of x in front of the first strictly greater element;
together with sortByLt this models std::list::sort with a strict-weak
comparator (a stable sort). -/
def insertByLt (lt : Process → Process → Bool) (x : Process) :
    List Process → List Process
  | [] => [x]
  | y :: ys => if lt x y then x :: y :: ys else y :: insertByLt lt x ys

/-- A stable sort by the strict comparator lt, modelling
ready_queue.sort(comparator) in main.cpp. -/
def sortByLt (lt : Process → Process → Bool) : List Process → List Process
  | [] => []
  | x :: xs => insertByLt lt x (sortByLt lt xs)

/-- The policy sort of the sweep (main.cpp, lines 123-132): SJF sorts the
ready queue with SjfComparator, PP with PpComparator, FCFS and RR leave the
queue untouched. -/
def sortPhase (alg : ScheduleAlgorithm) (st : CoordState) : CoordState :=
  let st1 :=
    if alg = ScheduleAlgorithm.SJF then
      { st with sh := { st.sh with ready_queue := sortByLt sjfComparator st.sh.ready_queue } }
    else st
  if alg = ScheduleAlgorithm.PP then
    { st1 with sh := { st1.sh with ready_queue := sortByLt ppComparator st1.sh.ready_queue } }
  else st1

/-- The half-done and all-done checks of the sweep (main.cpp, lines
134-143): half_time is stamped when the terminated count has reached
processes.size() / 2 (integer floor division in the source) and half_time
is still 0; all_terminated and end_time when every process terminated. -/
def sweepChecks (st : CoordState) (t : Nat) : CoordState :=
  let st1 :=
    if st.sh.terminated.length ≥ st.processes.length / 2 ∧ st.half_time = 0 then
      { st with half_time := t }
    else st
  if st1.processes.length = st1.sh.terminated.length then
    { st1 with sh := { st1.sh with all_terminated := true }, end_time := t }
  else st1

/-- One full coordinator sweep under the mutex (main.cpp, lines 92-144). -/
def coordinatorSweep (alg : ScheduleAlgorithm) (programStartTime : Nat)
    (st : CoordState) (t : Nat) : CoordState :=
  sweepChecks (sortPhase alg (arrivalPhase programStartTime t st)) t

/-- Applies the SJF comparator sort to the ready queue of a coordinator
state, leaving everything else unchanged. -/
def sortReadySjf (st : CoordState) : CoordState :=
  { st with sh := { st.sh with ready_queue := sortByLt sjfComparator st.sh.ready_queue } }

/-! ## Lock events around the context-switch spin waits

The claims about the mutex discipline of the spin waits are claims about
which statements of coreRunProcesses execute inside a lock_guard scope.
Each complete path of one worker iteration that reaches a spin wait is
transcribed below as the sequence of its lock-relevant events, in source
order: lock / unlock for the lock_guard scopes, dropP for the statement
p = NULL, and spin for the busy wait on context_switch.  Every path starts
with the size-reading critical section of lines 230-233. -/

/-- Lock-relevant events of the worker loop. -/
inductive LEv where
  | lock
  | unlock
  | dropP
  | spin
  deriving DecidableEq, Repr

/-- FCFS / SJF termination path (main.cpp, lines 230-233 and 263-276):
size read, terminated push_back under the mutex, p = NULL, spin. -/
def fcfsTermEvents : List LEv := [LEv.lock, LEv.unlock, LEv.lock, LEv.unlock, LEv.dropP, LEv.spin]

/-- FCFS / SJF I/O path (main.cpp, lines 230-233 and 277-287): no lock
taken in the path itself. -/
def fcfsIoEvents : List LEv := [LEv.lock, LEv.unlock, LEv.dropP, LEv.spin]

/-- RR termination path (main.cpp, lines 230-233 and 299-310). -/
def rrTermEvents : List LEv := [LEv.lock, LEv.unlock, LEv.lock, LEv.unlock, LEv.dropP, LEv.spin]

/-- RR I/O path (main.cpp, lines 230-233 and 311-321). -/
def rrIoEvents : List LEv := [LEv.lock, LEv.unlock, LEv.dropP, LEv.spin]

/-- RR time-slice path (main.cpp, lines 230-233 and 322-335): ready-queue
push_back under the mutex, then p = NULL and the spin outside it. -/
def rrSliceEvents : List LEv := [LEv.lock, LEv.unlock, LEv.lock, LEv.unlock, LEv.dropP, LEv.spin]

/-- PP preemption path (main.cpp, lines 230-233 and 344-363): the
lock_guard scope opened at line 346 encloses the head inspection, the
requeue, p = NULL at line 357 AND the spin wait of lines 359-360; the scope
closes at line 363, after the spin. -/
def ppPreemptEvents : List LEv := [LEv.lock, LEv.unlock, LEv.lock, LEv.dropP, LEv.spin, LEv.unlock]

/-- PP termination path (main.cpp, lines 230-233, 344-363 without
preemption, 365-378). -/
def ppTermEvents : List LEv :=
  [LEv.lock, LEv.unlock, LEv.lock, LEv.unlock, LEv.lock, LEv.unlock, LEv.dropP, LEv.spin]

/-- PP I/O path (main.cpp, lines 230-233, 344-363 without preemption,
379-390). -/
def ppIoEvents : List LEv :=
  [LEv.lock, LEv.unlock, LEv.lock, LEv.unlock, LEv.dropP, LEv.spin]

/-- Walks an event trace with the current lock depth and whether the worker
still holds a process; true when every spin event occurs at lock depth 0. -/
def spinsUnlocked : List LEv → Nat → Bool
  | [], _ => true
  | LEv.lock :: r, d => spinsUnlocked r (d + 1)
  | LEv.unlock :: r, d => spinsUnlocked r (d - 1)
  | LEv.dropP :: r, d => spinsUnlocked r d
  | LEv.spin :: r, d => d = 0 && spinsUnlocked r d

/-- True when every spin event occurs after the worker has released its
process (p = NULL precedes the spin). -/
def spinsWithoutProcess : List LEv → Bool → Bool
  | [], _ => true
  | LEv.lock :: r, hp => spinsWithoutProcess r hp
  | LEv.unlock :: r, hp => spinsWithoutProcess r hp
  | LEv.dropP :: r, _ => spinsWithoutProcess r false
  | LEv.spin :: r, hp => hp = false && spinsWithoutProcess r hp

/-! ## The check-then-pop window of the acquire phase

The acquire phase of a worker (main.cpp, lines 228-242) reads the
ready-queue size in one critical section (lines 230-233), tests
readySize > 0 outside any lock (line 236), and pops the front in a second
critical section (lines 237-242) that re-reads the size but performs no
emptiness test before front() / pop_front().  The model below exposes the
two critical sections of two workers as four atomic actions so that their
interleavings can be examined; a pop on an empty queue (undefined behaviour
on std::list) increments an error counter. -/

/-- Shared queue plus each worker's recorded outcome of its size check. -/
structure AcqSys where
  q : List Nat
  passed1 : Bool
  passed2 : Bool
  popErrors : Nat
  deriving DecidableEq, Repr

/-- The four atomic critical sections: worker i's size check and worker i's
pop.  The pop runs exactly when the earlier check saw a non-empty queue,
with no re-test inside its own critical section, as in the source. -/
inductive AcqAct where
  | check1
  | check2
  | pop1
  | pop2
  deriving DecidableEq, Repr

/-- Effect of one atomic critical section on the shared state. -/
def acqStep (s : AcqSys) : AcqAct → AcqSys
  | AcqAct.check1 => { s with passed1 := s.q.length > 0 }
  | AcqAct.check2 => { s with passed2 := s.q.length > 0 }
  | AcqAct.pop1 =>
    if s.passed1 then
      match s.q with
      | [] => { s with popErrors := s.popErrors + 1, passed1 := false }
      | _ :: rest => { s with q := rest, passed1 := false }
    else s
  | AcqAct.pop2 =>
    if s.passed2 then
      match s.q with
      | [] => { s with popErrors := s.popErrors + 1, passed2 := false }
      | _ :: rest => { s with q := rest, passed2 := false }
    else s

/-- Runs an interleaving of critical sections. -/
def acqRun (s : AcqSys) (acts : List AcqAct) : AcqSys := acts.foldl acqStep s

/-! ## Concrete states used by the claim theorems

Each record below is produced by applying the embedded source operations in
the order the program applies them, starting from the constructor, so every
state is one the simulator itself reaches on a run with the stated timing.
Times are in milliseconds; the program-start clock value is arbitrary. -/

/-- FCFS process with bursts [100, 50, 80]: constructed at time 10 (arrival
offset 0, so Ready), popped and dispatched by a worker at time 12. -/
def pC1 : Process := dispatchProcess (mkProcess ⟨1, 0, 3, [100, 50, 80], 2⟩ 10) 0 65535 12

/-- FCFS process with the single burst [100], dispatched at time 12. -/
def pC5 : Process := dispatchProcess (mkProcess ⟨4, 0, 1, [100], 3⟩ 10) 0 65535 12

/-- PP process with bursts [100, 50, 60], priority 2, dispatched at time
20; the worker enters the PP block at time 20 (setPPFlag on entry, setPPTime
and the first observation inside the block), the queue still being empty, so
the block keeps it.  pC2m is its value when the next iteration begins. -/
def pC2a : Process := setPPFlag (dispatchProcess (mkProcess ⟨6, 0, 3, [100, 50, 60], 2⟩ 10) 0 65535 20)

/-- Value of the PP process after the first PP-block iteration at time 20
(the keep branch returns the observed process). -/
def pC2m : Process := updateProcess (setPPTime pC2a 20) 20

/-- Worker-local state after that first PP iteration. -/
def csC2m : CoreState := { initCoreState with inProcess := true }

/-- Higher-priority process (priority 0) that the coordinator woke and
pushed onto the ready queue at time 120, while pC2m is still on the core. -/
def hpC2 : Process := setIntoQueueTime (setState (mkProcess ⟨7, 100, 1, [50], 0⟩ 10) PState.Ready 120) 120

/-- PP process with bursts [80, 40, 70], priority 3, dispatched on core 1
at time 30, first PP-block iteration at time 30 with an empty queue. -/
def pC3a : Process := setPPFlag (dispatchProcess (mkProcess ⟨8, 0, 3, [80, 40, 70], 3⟩ 5) 1 65535 30)

/-- Value of that process when the next PP iteration begins. -/
def pC3m : Process := updateProcess (setPPTime pC3a 30) 30

/-- Worker-local state for that iteration. -/
def csC3m : CoreState := { initCoreState with inProcess := true }

/-- Higher-priority process (priority 1) enqueued by the coordinator at
time 110. -/
def hpC3 : Process := setIntoQueueTime (setState (mkProcess ⟨9, 50, 1, [40], 1⟩ 5) PState.Ready 110) 110

/-- RR process with bursts [40, 20, 30]: constructed at time 10, dispatched
at time 100; the first RR-block iteration at time 100 stamps the
round-robin start time and snapshots the burst (index 0, duration 40). -/
def pRRa : Process := setRRFlag (dispatchProcess (mkProcess ⟨3, 0, 3, [40, 20, 30], 2⟩ 10) 0 65535 100)

/-- Value of the RR process when the next iteration begins (the keep branch
of the first iteration returns the observed process; setRRFlag is
re-applied by the loop and is idempotent). -/
def pRRw : Process := setRRFlag (updateProcess (setRoundRobinStartTime pRRa 100) 100)

/-- Worker-local state after the first RR iteration: inRobin set, burst
snapshot taken. -/
def csRRw : CoreState := { initCoreState with inRobin := true, currentBurst := 0, currentBurstTime := 40 }

/-- Process with arrival offset 50, constructed at time 10 (NotStarted). -/
def pC6 : Process := mkProcess ⟨11, 50, 1, [30], 2⟩ 10

/-- The same process after the coordinator wakes it at time 60 (the first
NotStarted -> Ready transition, main.cpp lines 104-106). -/
def pC6r : Process := setIntoQueueTime (setState pC6 PState.Ready 60) 60

/-- The same process after its first dispatch to Running at time 65. -/
def pC6d : Process := dispatchProcess pC6r 0 65535 65

/-- A single not-yet-arrived process for the half-done check: arrival
offset 1000, constructed at program start 0. -/
def pC7 : Process := mkProcess ⟨5, 1000, 1, [30], 1⟩ 0

/-- Coordinator state with one process, none terminated, half_time not yet
recorded. -/
def stC7 : CoordState :=
  { processes := [pC7]
    sh := { ready_queue := [], terminated := [], all_terminated := false }
    half_time := 0
    end_time := 0 }

/-- A process driven to Terminated through setState (the call performs no
validation, which is what claim C8 is about). -/
def pC8 : Process := setState (mkProcess ⟨12, 0, 1, [20], 0⟩ 10) PState.Terminated 15

/-- Coordinator state with two processes and one entry in the terminated
list (the floor threshold 2 / 2 = 1 is reached). -/
def stC7w : CoordState :=
  { processes := [pC7, pC7]
    sh := { ready_queue := [], terminated := [pC8], all_terminated := false }
    half_time := 0
    end_time := 0 }

/-! ## Helper lemmas -/

/-- uint32 subtraction agrees with Nat subtraction when it cannot wrap. -/
theorem u32sub_of_le {a b : Nat} (hba : b ≤ a) (ha : a < U32) : u32sub a b = a - b := by
  unfold u32sub
  have hb : b % U32 = b := Nat.mod_eq_of_lt (lt_of_le_of_lt hba ha)
  rw [hb]
  have h1 : a + (U32 - b) = U32 + (a - b) := by omega
  rw [h1, Nat.add_mod_left]
  exact Nat.mod_eq_of_lt (by omega)

/-- Reading back the written position of List.set. -/
theorem getD_set_self (l : List Nat) (i v : Nat) :
    (l.set i v).getD i 0 = if i < l.length then v else l.getD i 0 := by
  induction l generalizing i with
  | nil => simp
  | cons a as ih =>
    cases i with
    | zero => simp
    | succ n => simpa using ih n

theorem updateProcess_state (p : Process) (t : Nat) : (updateProcess p t).state = p.state := rfl

theorem updateProcess_priority (p : Process) (t : Nat) :
    (updateProcess p t).priority = p.priority := rfl

theorem updateProcess_current_burst (p : Process) (t : Nat) :
    (updateProcess p t).current_burst = p.current_burst := rfl

theorem updateProcess_burst_times (p : Process) (t : Nat) :
    (updateProcess p t).burst_times = p.burst_times := rfl

theorem updateProcess_rrStart (p : Process) (t : Nat) :
    (updateProcess p t).roundRobinStartTime = p.roundRobinStartTime := rfl

theorem updateProcess_ppTime (p : Process) (t : Nat) :
    (updateProcess p t).ppTime = p.ppTime := rfl

/-- Observation of a Running process with the RR flag set: burstTimeElapsed
is the consumed part of the current burst plus the time since the
round-robin start. -/
theorem updateProcess_be_run_rr (p : Process) (t : Nat)
    (hst : p.state = PState.Running) (hrr : p.rrFlag = true) (hpp : p.ppFlag = false)
    (hwf : burstAt p p.current_burst ≤ cpuIoAt p p.current_burst)
    (hb : cpuIoAt p p.current_burst < U32) :
    (updateProcess p t).burstTimeElapsed =
      (cpuIoAt p p.current_burst - burstAt p p.current_burst) + (t - p.roundRobinStartTime) := by
  simp only [updateProcess, hst, hrr, hpp]
  simp only [reduceCtorEq, ne_eq, and_false, and_true, if_false, if_true, Bool.false_eq_true,
    and_self, ite_true, ite_false, not_false_eq_true, not_true]
  split_ifs with h1
  · rw [h1, Nat.sub_self]
  · rw [u32sub_of_le hwf hb]

/-- One sweepProcess call appends exactly one process to the swept list. -/
theorem sweepProcess_fst_length (a t : Nat) (acc : List Process × List Process) (q : Process) :
    (sweepProcess a t acc q).1.length = acc.1.length + 1 := by
  simp only [sweepProcess]
  simp

/-- The sweep fold preserves the process count. -/
theorem foldl_sweep_length (a t : Nat) (l : List Process) :
    ∀ acc : List Process × List Process,
      ((l.foldl (sweepProcess a t) acc).1).length = acc.1.length + l.length := by
  induction l with
  | nil => intro acc; simp
  | cons q l ih =>
    intro acc
    simp only [List.foldl_cons, List.length_cons]
    rw [ih, sweepProcess_fst_length]
    omega

theorem arrivalPhase_processes_length (a t : Nat) (st : CoordState) :
    (arrivalPhase a t st).processes.length = st.processes.length := by
  simp only [arrivalPhase]
  rw [foldl_sweep_length]
  simp

theorem arrivalPhase_terminated (a t : Nat) (st : CoordState) :
    (arrivalPhase a t st).sh.terminated = st.sh.terminated := rfl

theorem arrivalPhase_half (a t : Nat) (st : CoordState) :
    (arrivalPhase a t st).half_time = st.half_time := rfl

theorem sortPhase_terminated (alg : ScheduleAlgorithm) (st : CoordState) :
    (sortPhase alg st).sh.terminated = st.sh.terminated := by
  unfold sortPhase
  split_ifs <;> rfl

theorem sortPhase_processes (alg : ScheduleAlgorithm) (st : CoordState) :
    (sortPhase alg st).processes = st.processes := by
  unfold sortPhase
  split_ifs <;> rfl

theorem sortPhase_half (alg : ScheduleAlgorithm) (st : CoordState) :
    (sortPhase alg st).half_time = st.half_time := by
  unfold sortPhase
  split_ifs <;> rfl

/-- The half-done and all-done checks commute with sorting the ready queue:
they read only the terminated list, the process count and the marks. -/
theorem sweepChecks_sortReadySjf (st : CoordState) (t : Nat) :
    sweepChecks (sortReadySjf st) t = sortReadySjf (sweepChecks st t) := by
  dsimp only [sweepChecks, sortReadySjf]
  split_ifs <;> rfl

/-! ## Claim theorems -/

/-- Claim C1.  The specification states the burst-completion trigger as
burst_elapsed at least the current burst duration; the worker in main.cpp
tests strictly greater (line 277 for FCFS / SJF, line 311 for RR, line 379
for PP).  Evaluated at the exact boundary: pC1 (FCFS, burst 100) observed
with elapsed exactly 100 is kept on the core and only yields at 101; the
RR worker at elapsed equal to its burst snapshot and the PP worker at
elapsed equal to its burst duration are likewise kept.  The coordinator
uses the non-strict test for I/O completion (main.cpp line 114), so the
strict test is the off-by-one the specification itself flags. -/
theorem c1_burst_completion_trigger_is_strict :
    ((updateProcess pC1 112).burstTimeElapsed = cpuIoAt pC1 pC1.current_burst ∧
      (fcfsSjfBlock pC1 112).isKeep = true ∧
      (fcfsSjfBlock pC1 113).isToIo = true) ∧
    ((updateProcess pRRw 140).burstTimeElapsed = csRRw.currentBurstTime ∧
      (rrBlock pRRw csRRw 1000 140).1.isKeep = true) ∧
    ((updateProcess pC2m 120).burstTimeElapsed = cpuIoAt pC2m pC2m.current_burst ∧
      (ppBlock [] pC2m csC2m 120).1.isKeep = true) := by decide

/-- Claim C2 counterexample.  On the PP preemption path the subtraction is
not guarded by the burst-completion check (which runs later, see C3): with
pC2m running burst 0 (stored remainder 100, started at time 20) and the
higher-priority hpC2 at the head, the preemption at time 121 calls
updateBurstTime with delta 101 and the uint32 remainder wraps to
4294967295 instead of a non-negative value. -/
theorem c2_pp_preemption_wraps_remainder :
    (ppBlock [hpC2] pC2m csC2m 121).1.isToReady = true ∧
    burstAt pC2m pC2m.current_burst = 100 ∧
    121 - pC2m.ppTime = 101 ∧
    burstAt ((ppBlock [hpC2] pC2m csC2m 121).1.proc) pC2m.current_burst = 4294967295 := by
  decide

/-- Claim C2 (amended).  updateBurstTime subtracts the elapsed run time
from the stored remainder of the current CPU burst; on the RR time-slice
path, whose guards run first with the same timestamp, the elapsed slice
never exceeds the stored remainder, so the new remainder is the exact
non-negative difference.  (On the PP preemption path this can wrap, see
the counterexample.) -/
theorem c2_rr_slice_reduces_burst_exactly
    (p : Process) (cs : CoreState) (time_slice t : Nat)
    (hin : cs.inRobin = true)
    (hst : p.state = PState.Running)
    (hrr : p.rrFlag = true)
    (hpp : p.ppFlag = false)
    (hwf : burstAt p p.current_burst ≤ cpuIoAt p p.current_burst)
    (hb : cpuIoAt p p.current_burst < U32)
    (hsnap : cs.currentBurstTime = cpuIoAt p p.current_burst) :
    ∀ p1 cs1, rrBlock p cs time_slice t = (BlockResult.toReady p1, cs1) →
      t - p.roundRobinStartTime ≤ burstAt p p.current_burst ∧
      burstAt p1 p.current_burst =
        burstAt p p.current_burst - (t - p.roundRobinStartTime) := by
  intro p1 cs1 h
  rw [rrBlock] at h
  rw [hin] at h
  simp only [Bool.true_eq_false, if_false, ite_false] at h
  split_ifs at h with h1 h2 h3
  · simp at h
  · simp at h
  · simp only [Prod.mk.injEq, BlockResult.toReady.injEq] at h
    obtain ⟨hp1, -⟩ := h
    subst hp1
    have hbe := updateProcess_be_run_rr p t hst hrr hpp hwf hb
    rw [hbe, hsnap] at h2
    have hdelta : t - p.roundRobinStartTime ≤ burstAt p p.current_burst := by omega
    refine ⟨hdelta, ?_⟩
    have hblt : burstAt p p.current_burst < U32 := lt_of_le_of_lt hwf hb
    simp only [burstAt, updateBurstTime, setState, setCpuCore, setIntoQueueTime,
      updateProcess_current_burst, updateProcess_burst_times, updateProcess_rrStart]
    simp only [burstAt] at hdelta hblt
    rw [getD_set_self]
    split_ifs with hlen
    · exact u32sub_of_le hdelta hblt
    · rw [List.getD_eq_default _ _ (by omega)]
      omega
  · simp at h

/-- Claim C2 witness: the RR process pRRw (remainder 40, slice started at
time 100) hits the 20 ms time slice at time 120 and its remainder becomes
exactly 40 - 20. -/
theorem c2_rr_slice_reduces_burst_exactly_witness :
    120 - pRRw.roundRobinStartTime ≤ burstAt pRRw pRRw.current_burst ∧
    burstAt ((rrBlock pRRw csRRw 20 120).1.proc) pRRw.current_burst =
      burstAt pRRw pRRw.current_burst - (120 - pRRw.roundRobinStartTime) :=
  c2_rr_slice_reduces_burst_exactly pRRw csRRw 20 120 (by decide) (by decide) (by decide)
    (by decide) (by decide) (by decide) (by decide)
    ((rrBlock pRRw csRRw 20 120).1.proc) ((rrBlock pRRw csRRw 20 120).2) (by decide)

/-- Claim C3 counterexample.  Under PP the worker checks preemption before
burst completion: pC3m has completed its current burst at time 111
(elapsed 81 on a burst of 80), yet with the higher-priority hpC3 at the
head the iteration requeues it as Ready (preemption) instead of sending it
to I/O (burst completion). -/
theorem c3_pp_preemption_beats_completed_burst :
    (updateProcess pC3m 111).burstTimeElapsed > cpuIoAt pC3m pC3m.current_burst ∧
    (ppBlock [hpC3] pC3m csC3m 111).1.isToReady = true ∧
    ((ppBlock [hpC3] pC3m csC3m 111).1.proc).state = PState.Ready := by decide

/-- Claim C3 (amended).  FCFS / SJF and RR evaluate the yield conditions in
the order termination, burst completion, then (RR) slice expiry; under PP
however the preemption check against the ready-queue head runs FIRST: for
every PP state in an ongoing episode, a strictly higher-priority head
forces the preemption action (requeue as Ready) regardless of whether the
burst-completion condition also holds. -/
theorem c3_pp_preemption_checked_first
    (rest : List Process) (nx p : Process) (cs : CoreState) (t : Nat)
    (hin : cs.inProcess = true) (hpr : nx.priority < p.priority) :
    (ppBlock (nx :: rest) p cs t).1.isToReady = true ∧
    ((ppBlock (nx :: rest) p cs t).1.proc).state = PState.Ready ∧
    (ppBlock (nx :: rest) p cs t).2 = { cs with inProcess := false } := by
  simp only [ppBlock, hin, Bool.true_eq_false, if_false, ite_false, updateProcess_priority]
  rw [if_pos hpr]
  exact ⟨rfl, rfl, rfl⟩

/-- Claim C3 witness: the amended order statement at the concrete PP state
of the counterexample. -/
theorem c3_pp_preemption_checked_first_witness :
    (ppBlock [hpC3] pC3m csC3m 111).1.isToReady = true ∧
    ((ppBlock [hpC3] pC3m csC3m 111).1.proc).state = PState.Ready ∧
    (ppBlock [hpC3] pC3m csC3m 111).2 = { csC3m with inProcess := false } :=
  c3_pp_preemption_checked_first [] hpC3 pC3m csC3m 111 (by decide) (by decide)

/-- Claim C4 counterexample.  In the PP preemption path the context-switch
busy wait (main.cpp lines 359-360) executes inside the lock_guard scope
opened at line 346 and closed at line 363: the worker holds the scheduler
mutex across that spin. -/
theorem c4_pp_preempt_spins_holding_lock :
    spinsUnlocked ppPreemptEvents 0 = false := by decide

/-- Claim C4 (amended).  No process is held during any context-switch spin
wait (p is set to NULL before every spin, including the PP preemption
path), and the spin wait runs with no lock held on every path except the
PP preemption path, where the scheduler mutex is held across the spin. -/
theorem c4_spin_wait_lock_discipline :
    (spinsUnlocked fcfsTermEvents 0 = true ∧
     spinsUnlocked fcfsIoEvents 0 = true ∧
     spinsUnlocked rrTermEvents 0 = true ∧
     spinsUnlocked rrIoEvents 0 = true ∧
     spinsUnlocked rrSliceEvents 0 = true ∧
     spinsUnlocked ppTermEvents 0 = true ∧
     spinsUnlocked ppIoEvents 0 = true) ∧
    (spinsWithoutProcess fcfsTermEvents true = true ∧
     spinsWithoutProcess fcfsIoEvents true = true ∧
     spinsWithoutProcess rrTermEvents true = true ∧
     spinsWithoutProcess rrIoEvents true = true ∧
     spinsWithoutProcess rrSliceEvents true = true ∧
     spinsWithoutProcess ppPreemptEvents true = true ∧
     spinsWithoutProcess ppTermEvents true = true ∧
     spinsWithoutProcess ppIoEvents true = true) := by decide

/-- Claim C5 counterexample.  The worker observes its process without
holding the mutex (main.cpp line 264), so the value after updateProcess is
an observation point: pC5 (single burst of 100, dispatched at time 12)
observed at time 114 reports remaining time -2 milliseconds while still
Running, violating both remaining non-negativity and the zero-iff-
terminated equivalence. -/
theorem c5_remaining_negative_while_running :
    (updateProcess pC5 114).remain_time = -2 ∧
    (updateProcess pC5 114).remain_time < 0 ∧
    (updateProcess pC5 114).state = PState.Running := by decide

/-- Claim C5 (amended).  For a process that is not Running, observation
sets remaining time to 0 when it is Terminated and leaves it unchanged
otherwise; while Running the recomputed remaining time can transiently be
zero or negative before the termination check fires (counterexample). -/
theorem c5_remaining_zero_when_terminated (p : Process) (t : Nat)
    (h : p.state ≠ PState.Running) :
    (updateProcess p t).remain_time =
      if p.state = PState.Terminated then 0 else p.remain_time := by
  simp only [updateProcess, h]
  simp [h]

/-- Claim C5 witness: the Terminated process pC8 observed at time 30
reports remaining time 0. -/
theorem c5_remaining_zero_when_terminated_witness :
    (updateProcess pC8 30).remain_time =
      if pC8.state = PState.Terminated then 0 else pC8.remain_time :=
  c5_remaining_zero_when_terminated pC8 30 (by decide)

/-- Claim C6 counterexample.  pC6 has arrival offset 50; the coordinator
moves it NotStarted -> Ready at time 60, but setState (process.cpp, second
revision, lines 312-318) does not touch launch_time, which stays 0 instead
of 60; launch_time is set only at the first dispatch to Running (main.cpp
lines 247-250), here at time 65. -/
theorem c6_launch_not_set_on_ready_transition :
    pC6r.state = PState.Ready ∧
    pC6r.launch_time = 0 ∧
    pC6r.launch_time ≠ 60 ∧
    pC6d.launch_time = 65 := by decide

/-- Claim C6 (amended).  For every process, the Ready transition leaves
launch_time unchanged; the anchor is set at the first dispatch to Running:
dispatchProcess on a not-yet-launched process stamps launch_time with the
dispatch time and marks it launched. -/
theorem c6_launch_time_set_at_first_dispatch (p : Process) (core_id : Int) (cb t u : Nat)
    (h : p.launched = false) :
    (setState p PState.Ready u).launch_time = p.launch_time ∧
    (dispatchProcess p core_id cb t).launch_time = t ∧
    (dispatchProcess p core_id cb t).launched = true := by
  refine ⟨rfl, ?_, ?_⟩ <;>
  · simp only [dispatchProcess, setState, setCpuCore, setLaunched, setLaunchTime,
      resetBurstTimeElapsed, setBurstStartTime]
    simp [h]
    split_ifs <;> rfl

/-- Claim C6 witness: the amended statement at the concrete process pC6. -/
theorem c6_launch_time_set_at_first_dispatch_witness :
    (setState pC6 PState.Ready 60).launch_time = pC6.launch_time ∧
    (dispatchProcess pC6 0 65535 65).launch_time = 65 ∧
    (dispatchProcess pC6 0 65535 65).launched = true :=
  c6_launch_time_set_at_first_dispatch pC6 0 65535 65 60 (by decide)

/-- Claim C7 counterexample.  With a single process (n = 1) and nothing
terminated, the coordinator records half_time on its first sweep: the
source threshold is terminated.size() >= processes.size() / 2, i.e. the
floor 1 / 2 = 0, not the ceiling 1, so it fires at terminated count 0. -/
theorem c7_half_recorded_below_ceiling :
    (coordinatorSweep ScheduleAlgorithm.FCFS 0 stC7 5).half_time = 5 ∧
    stC7.sh.terminated.length = 0 ∧
    stC7.sh.terminated.length < (stC7.processes.length + 1) / 2 := by decide

/-- Claim C7 (amended).  A sweep that starts with half_time still 0 records
half_time = t exactly when the terminated count has reached the FLOOR of
n / 2 (which coincides with the ceiling for even n, but fires one
termination earlier for odd n, at count 0 for n = 1). -/
theorem c7_half_time_floor_threshold (alg : ScheduleAlgorithm) (progStart : Nat)
    (st : CoordState) (t : Nat) (h0 : st.half_time = 0) :
    (coordinatorSweep alg progStart st t).half_time =
      if st.sh.terminated.length ≥ st.processes.length / 2 then t else 0 := by
  have key : ∀ A : CoordState, A.sh.terminated = st.sh.terminated →
      A.processes.length = st.processes.length → A.half_time = 0 →
      (sweepChecks A t).half_time =
        if st.sh.terminated.length ≥ st.processes.length / 2 then t else 0 := by
    intro A ha hb hc
    simp only [sweepChecks]
    split_ifs <;> (try simp_all) <;> omega
  refine key _ ?_ ?_ ?_
  · rw [sortPhase_terminated, arrivalPhase_terminated]
  · rw [sortPhase_processes, arrivalPhase_processes_length]
  · rw [sortPhase_half, arrivalPhase_half, h0]

/-- Claim C7 witness: two processes, one terminated, half_time still 0;
the sweep at time 9 records half_time = 9 (threshold 2 / 2 = 1 reached). -/
theorem c7_half_time_floor_threshold_witness :
    (coordinatorSweep ScheduleAlgorithm.FCFS 0 stC7w 9).half_time =
      if stC7w.sh.terminated.length ≥ stC7w.processes.length / 2 then 9 else 0 :=
  c7_half_time_floor_threshold ScheduleAlgorithm.FCFS 0 stC7w 9 (by decide)

/-- Claim C8 counterexample.  setState performs no validation and never
aborts: driving a process Ready -> Terminated (forbidden) and then
Terminated -> Running (Terminated is absorbing, so also forbidden)
silently updates the state each time. -/
theorem c8_forbidden_transition_silently_applied :
    pC8.state = PState.Terminated ∧
    (setState pC8 PState.Running 20).state = PState.Running := by decide

/-- Claim C8 (amended).  The state-transition operation validates nothing:
for every process and every requested state, allowed or forbidden, setState
assigns the requested state (its only other effect is recording the
current wait episode on Ready -> Running), and launch_time is untouched;
there is no abort path. -/
theorem c8_setstate_never_validates (p : Process) (ns : PState) (t : Nat) :
    (setState p ns t).state = ns ∧ (setState p ns t).launch_time = p.launch_time :=
  ⟨rfl, rfl⟩

/-- Claim C9 counterexample.  The emptiness check and the pop are two
separate critical sections with no re-test before pop_front: interleaving
two workers (both check a one-element queue, then both pop) makes the
second pop execute on an empty queue. -/
theorem c9_interleaved_pop_on_empty_queue :
    (acqRun ⟨[7], false, false, 0⟩
      [AcqAct.check1, AcqAct.check2, AcqAct.pop1, AcqAct.pop2]).popErrors = 1 := by decide

/-- Claim C9 (amended).  The check and the pop are under two separate mutex
acquisitions; only in the absence of interference between them (a single
worker running check then pop) is the pop never executed on an empty
queue. -/
theorem c9_single_worker_pop_never_empty (q : List Nat) :
    (acqRun ⟨q, false, false, 0⟩ [AcqAct.check1, AcqAct.pop1]).popErrors = 0 := by
  cases q with
  | nil => rfl
  | cons a rest => simp [acqRun, acqStep]

/-- Claim C10.  The worker executes the identical code path for FCFS and
SJF: one iteration of the core loop is the same function of the state for
both policies.  And the coordinator sweep under SJF equals the sweep under
FCFS followed by sorting the ready queue with the SJF comparator, so the
two policies differ only in that sort. -/
theorem c10_sjf_fcfs_worker_identical :
    (∀ time_slice sh cs core_id t,
       coreIteration ScheduleAlgorithm.FCFS time_slice sh cs core_id t =
       coreIteration ScheduleAlgorithm.SJF time_slice sh cs core_id t) ∧
    (∀ progStart st t,
       coordinatorSweep ScheduleAlgorithm.SJF progStart st t =
       sortReadySjf (coordinatorSweep ScheduleAlgorithm.FCFS progStart st t)) := by
  refine ⟨fun _ _ _ _ _ => rfl, fun progStart st t => ?_⟩
  show sweepChecks (sortPhase ScheduleAlgorithm.SJF (arrivalPhase progStart t st)) t
      = sortReadySjf (sweepChecks (sortPhase ScheduleAlgorithm.FCFS (arrivalPhase progStart t st)) t)
  rw [show sortPhase ScheduleAlgorithm.SJF (arrivalPhase progStart t st)
        = sortReadySjf (arrivalPhase progStart t st) from rfl]
  rw [show sortPhase ScheduleAlgorithm.FCFS (arrivalPhase progStart t st)
        = arrivalPhase progStart t st from rfl]
  exact sweepChecks_sortReadySjf _ _
